import Mathlib

/-!
Verification of the RTD (resistance temperature detector) conversion library
`rtd_calculator.c` and of the resistance read-out of the MAX31865 driver
`MAX31865.c`.  The C `double` computations are modelled over the real
numbers; `pow(x, i)` with a natural exponent is `x ^ i`, `sqrt` is
`Real.sqrt` (which returns 0 on negative arguments), and division follows
Lean's convention `x / 0 = 0` (the places where that convention matters
are stated explicitly in the theorems concerned).
-/

namespace RTD

/-! ### Family selector codes

Modelled from the spec: the family-variant selector codes `PT_385`,
`PT_391`, `M_428`, `N_617` are preprocessor constants of the missing
header `rtd_calculator.h`; only their distinctness matters to the code. -/

/-- Modelled from the spec: selector code for platinum, alpha 0.00385. -/
def PT_385 : ℕ := 0

/-- Modelled from the spec: selector code for platinum, alpha 0.00391. -/
def PT_391 : ℕ := 1

/-- Modelled from the spec: selector code for copper, alpha 0.00428. -/
def M_428 : ℕ := 2

/-- Modelled from the spec: selector code for nickel, alpha 0.00617. -/
def N_617 : ℕ := 3

/-! ### Callendar-Van Dusen constants

Modelled from the spec: the constants `A`, `B`, `C` per family live in the
missing header `rtd_calculator.h`; the spec requires them to "match the
governing standard tables exactly" (GOST 6651-2009, cited by the source
header comment), which fixes the values below.  They reproduce every
resistance-range endpoint documented in the source header comment
(e.g. Pt100: 390.48 Ohm at 850 C, 100M: 185.60 Ohm at 200 C,
1000N: 2232.06 Ohm at 180 C). -/

/-- Modelled from the spec: GOST 6651-2009 constant A, platinum 0.00385. -/
noncomputable def PT_A_385 : ℝ := 3.9083e-3

/-- Modelled from the spec: GOST 6651-2009 constant B, platinum 0.00385. -/
noncomputable def PT_B_385 : ℝ := -5.775e-7

/-- Modelled from the spec: GOST 6651-2009 constant C, platinum 0.00385. -/
noncomputable def PT_C_385 : ℝ := -4.183e-12

/-- Modelled from the spec: GOST 6651-2009 constant A, platinum 0.00391. -/
noncomputable def PT_A_391 : ℝ := 3.9690e-3

/-- Modelled from the spec: GOST 6651-2009 constant B, platinum 0.00391. -/
noncomputable def PT_B_391 : ℝ := -5.841e-7

/-- Modelled from the spec: GOST 6651-2009 constant C, platinum 0.00391. -/
noncomputable def PT_C_391 : ℝ := -4.330e-12

/-- Modelled from the spec: GOST 6651-2009 constant A, copper 0.00428. -/
noncomputable def M_A_428 : ℝ := 4.28e-3

/-- Modelled from the spec: GOST 6651-2009 constant B, copper 0.00428. -/
noncomputable def M_B_428 : ℝ := -6.2032e-7

/-- Modelled from the spec: GOST 6651-2009 constant C, copper 0.00428. -/
noncomputable def M_C_428 : ℝ := 8.5154e-10

/-- Modelled from the spec: GOST 6651-2009 constant A, nickel 0.00617. -/
noncomputable def N_A_617 : ℝ := 5.4963e-3

/-- Modelled from the spec: GOST 6651-2009 constant B, nickel 0.00617. -/
noncomputable def N_B_617 : ℝ := 6.7556e-6

/-- Modelled from the spec: GOST 6651-2009 constant C, nickel 0.00617. -/
noncomputable def N_C_617 : ℝ := 9.2004e-9

/-! ### Coefficient tables (from `rtd_calculator.c`) -/

/-- `double PT_D_385[4]`, the 4-entry series table for platinum 0.00385. -/
noncomputable def PT_D_385 : List ℝ := [255.819, 9.14550, -2.92363, 1.79090]

/-- `double PT_D_391[4]`, the 4-entry series table for platinum 0.00391. -/
noncomputable def PT_D_391 : List ℝ := [251.903, 8.80035, -2.91506, 1.67611]

/-- `double M_D_428[4]`, the 4-entry series table for copper 0.00428. -/
noncomputable def M_D_428 : List ℝ := [233.87, 7.9370, -2.0062, -0.3953]

/-- `double N_D_617[3]`, the 3-entry series table for nickel 0.00617. -/
noncomputable def N_D_617 : List ℝ := [144.096, -25.502, 4.4876]

/-! ### The conversion functions of `rtd_calculator.c`

Each C function is translated branch for branch; the accumulation loops
are folds over the loop index (the C loop variable `i` runs from 1, the
fold runs over `j = i - 1`). -/

/-- `Get_Temperature_PT` from `rtd_calculator.c`: resistance to
temperature for the platinum families. -/
noncomputable def Get_Temperature_PT (Resistance R0 : ℝ) (Type' : ℕ) : ℝ :=
  if Resistance < R0 then
    (List.range 4).foldl (fun Temperature j =>
      if Type' = PT_385 then
        Temperature + PT_D_385.getD j 0 * (Resistance / R0 - 1) ^ (j + 1)
      else if Type' = PT_391 then
        Temperature + PT_D_391.getD j 0 * (Resistance / R0 - 1) ^ (j + 1)
      else Temperature) 0
  else if Type' = PT_385 then
    (Real.sqrt (PT_A_385 ^ 2 - 4 * PT_B_385 * (1 - Resistance / R0)) - PT_A_385) / (2 * PT_B_385)
  else if Type' = PT_391 then
    (Real.sqrt (PT_A_391 ^ 2 - 4 * PT_B_391 * (1 - Resistance / R0)) - PT_A_391) / (2 * PT_B_391)
  else 0

/-- `Get_Resistance_PT` from `rtd_calculator.c`: temperature to
resistance for the platinum families. -/
noncomputable def Get_Resistance_PT (Temperature R0 : ℝ) (Type' : ℕ) : ℝ :=
  if Temperature < 0 then
    if Type' = PT_385 then
      R0 * (1 + PT_A_385 * Temperature + PT_B_385 * Temperature ^ 2 +
        PT_C_385 * (Temperature - 100) * Temperature ^ 3)
    else if Type' = PT_391 then
      R0 * (1 + PT_A_391 * Temperature + PT_B_391 * Temperature ^ 2 +
        PT_C_391 * (Temperature - 100) * Temperature ^ 3)
    else 0
  else
    if Type' = PT_385 then
      R0 * (1 + PT_A_385 * Temperature + PT_B_385 * Temperature ^ 2)
    else if Type' = PT_391 then
      R0 * (1 + PT_A_391 * Temperature + PT_B_391 * Temperature ^ 2)
    else 0

/-- `Get_Temperature_M` from `rtd_calculator.c`: resistance to
temperature for the copper family. -/
noncomputable def Get_Temperature_M (Resistance R0 : ℝ) (Type' : ℕ) : ℝ :=
  if Resistance < R0 then
    (List.range 4).foldl (fun Temperature j =>
      if Type' = M_428 then
        Temperature + M_D_428.getD j 0 * (Resistance / R0 - 1) ^ (j + 1)
      else Temperature) 0
  else if Type' = M_428 then (Resistance / R0 - 1) / M_A_428
  else 0

/-- `Get_Resistance_M` from `rtd_calculator.c`: temperature to
resistance for the copper family. -/
noncomputable def Get_Resistance_M (Temperature R0 : ℝ) (Type' : ℕ) : ℝ :=
  if Temperature < 0 then
    if Type' = M_428 then
      R0 * (1 + M_A_428 * Temperature + M_B_428 * Temperature * (Temperature + 6.7) +
        M_C_428 * Temperature ^ 3)
    else 0
  else
    if Type' = M_428 then R0 * (1 + M_A_428 * Temperature)
    else 0

/-- `Get_Temperature_N` from `rtd_calculator.c`: resistance to
temperature for the nickel family.  `Temp_start` is initialised to 0 and
reassigned only for the three recognised nominal resistances. -/
noncomputable def Get_Temperature_N (Resistance R0 : ℝ) (Type' : ℕ) : ℝ :=
  if Type' = N_617 then
    let Temp_start : ℝ :=
      if R0 = 100 then 161.72 else if R0 = 500 then 808.59
      else if R0 = 1000 then 1617.2 else 0
    if Resistance < Temp_start then
      (Real.sqrt (N_A_617 ^ 2 - 4 * N_B_617 * (1 - Resistance / R0)) - N_A_617) / (2 * N_B_617)
    else
      ((List.range 3).foldl (fun Temperature j =>
        Temperature + N_D_617.getD j 0 * (Resistance / R0 - 1.6172) ^ (j + 1)) 0) + 100
  else 0

/-- `Get_Resistance_N` from `rtd_calculator.c`: temperature to
resistance for the nickel family. -/
noncomputable def Get_Resistance_N (Temperature R0 : ℝ) (Type' : ℕ) : ℝ :=
  if Type' = N_617 then
    if Temperature < 100 then
      R0 * (1 + N_A_617 * Temperature + N_B_617 * Temperature ^ 2)
    else
      R0 * (1 + N_A_617 * Temperature + N_B_617 * Temperature ^ 2 +
        N_C_617 * (Temperature - 100) * Temperature ^ 2)
  else 0

/-! ### The MAX31865 driver read-out (from `MAX31865.c`)

The SPI transaction itself is hardware I/O; the arithmetic applied to the
received 7-byte buffer is modelled on the first two bytes it uses.  The C
code packs `rx[0]` and `rx[1]` big-endian, shifts right by one and stores
the result in the `uint16_t` field `RTD_Resistance_Registers`. -/

/-- `MAX31865_R_REF`, the reference resistor value of `MAX31865.c`. -/
noncomputable def MAX31865_R_REF : ℝ := 428.5

/-- The RTD register value `((rx0 << 8) | rx1) >> 1`, truncated by the
`uint16_t` assignment in `MAX31865.c`. -/
def MAX31865_RTD_Registers (rx0 rx1 : ℕ) : ℕ :=
  (((rx0 <<< 8) ||| rx1) >>> 1) % 65536

/-- The value returned by `MAX31865_Get_Resistance` in `MAX31865.c`,
as a function of the first two received bytes:
`data = (double) registers * MAX31865_R_REF / 32768.0`. -/
noncomputable def MAX31865_Get_Resistance (rx0 rx1 : ℕ) : ℝ :=
  (MAX31865_RTD_Registers rx0 rx1 : ℝ) * MAX31865_R_REF / 32768


/-! ### Expansion helpers -/

lemma sum_Icc_one_four (f : ℕ → ℝ) : ∑ i in Finset.Icc 1 4, f i = f 1 + f 2 + f 3 + f 4 := by
  rw [show Finset.Icc 1 4 = {1, 2, 3, 4} by rfl]
  rw [Finset.sum_insert (by decide), Finset.sum_insert (by decide),
    Finset.sum_insert (by decide), Finset.sum_singleton]
  ring

lemma sum_Icc_one_three (f : ℕ → ℝ) : ∑ i in Finset.Icc 1 3, f i = f 1 + f 2 + f 3 := by
  rw [show Finset.Icc 1 3 = {1, 2, 3} by rfl]
  rw [Finset.sum_insert (by decide), Finset.sum_insert (by decide), Finset.sum_singleton]
  ring

/-- Claim C3: at temperature 0 every temperature-to-resistance operation
returns exactly the nominal resistance, for every family and every `R0`. -/
theorem C3_zero_temperature_fixed_point (R0 : ℝ) :
    Get_Resistance_PT 0 R0 PT_385 = R0 ∧ Get_Resistance_PT 0 R0 PT_391 = R0 ∧
    Get_Resistance_M 0 R0 M_428 = R0 ∧ Get_Resistance_N 0 R0 N_617 = R0 := by
  refine ⟨?_, ?_, ?_, ?_⟩ <;>
    norm_num [Get_Resistance_PT, Get_Resistance_M, Get_Resistance_N,
      PT_385, PT_391, M_428, N_617]

/-- Bits 0..7 of `rx1` and the shifted byte `rx0 <<< 8` do not overlap, so
the C expression `(rx0 << 8) | rx1` is plain positional addition. -/
lemma shiftLeft_lor_eq_add (a b : ℕ) (h : b < 2 ^ 8) :
    (a <<< 8) ||| b = 2 ^ 8 * a + b := by
  apply Nat.eq_of_testBit_eq
  intro j
  rw [Nat.testBit_lor, Nat.testBit_shiftLeft, Nat.testBit_mul_pow_two_add a h j]
  rcases Nat.lt_or_ge j 8 with hj | hj
  · simp [hj, Nat.not_le.mpr hj]
  · simp [hj, Nat.le_of_lt,
      Nat.testBit_lt_two_pow (Nat.lt_of_lt_of_le h (Nat.pow_le_pow_right (by omega) hj)),
      Nat.not_lt.mpr hj]

/-- Claim C9: the driver read-out returns `adc * R_ref / 32768` with
`adc` the 15-bit value obtained from the first two received bytes
(16-bit big-endian, shifted right by one) and `R_ref = 428.5`. -/
theorem C9_get_resistance_formula (rx0 rx1 : ℕ) (h0 : rx0 < 256) (h1 : rx1 < 256) :
    MAX31865_RTD_Registers rx0 rx1 = (rx0 * 256 + rx1) / 2 ∧
    MAX31865_RTD_Registers rx0 rx1 < 32768 ∧
    MAX31865_Get_Resistance rx0 rx1 =
      (((rx0 * 256 + rx1) / 2 : ℕ) : ℝ) * 428.5 / 32768 := by
  have key : (rx0 <<< 8) ||| rx1 = 2 ^ 8 * rx0 + rx1 :=
    shiftLeft_lor_eq_add rx0 rx1 (by omega)
  have hreg : MAX31865_RTD_Registers rx0 rx1 = (rx0 * 256 + rx1) / 2 := by
    unfold MAX31865_RTD_Registers
    rw [key, Nat.shiftRight_eq_div_pow]
    omega
  refine ⟨hreg, by omega, ?_⟩
  unfold MAX31865_Get_Resistance MAX31865_R_REF
  rw [hreg]

/-- Claim C9 witness: concrete received bytes 0x40, 0x03. -/
theorem C9_get_resistance_formula_witness :
    MAX31865_RTD_Registers 64 3 = (64 * 256 + 3) / 2 ∧
    MAX31865_RTD_Registers 64 3 < 32768 ∧
    MAX31865_Get_Resistance 64 3 = (((64 * 256 + 3) / 2 : ℕ) : ℝ) * 428.5 / 32768 :=
  C9_get_resistance_formula 64 3 (by norm_num) (by norm_num)

/-- Claim C6: a selector that is none of an operation's recognised
variants makes that operation return the defined default 0. -/
theorem C6_unrecognized_selector_returns_zero (x R0 : ℝ) (t : ℕ) :
    (t ≠ PT_385 → t ≠ PT_391 →
      Get_Temperature_PT x R0 t = 0 ∧ Get_Resistance_PT x R0 t = 0) ∧
    (t ≠ M_428 → Get_Temperature_M x R0 t = 0 ∧ Get_Resistance_M x R0 t = 0) ∧
    (t ≠ N_617 → Get_Temperature_N x R0 t = 0 ∧ Get_Resistance_N x R0 t = 0) := by
  refine ⟨fun h1 h2 => ⟨?_, ?_⟩, fun h3 => ⟨?_, ?_⟩, fun h4 => ⟨?_, ?_⟩⟩ <;>
    simp [Get_Temperature_PT, Get_Resistance_PT, Get_Temperature_M,
      Get_Resistance_M, Get_Temperature_N, Get_Resistance_N,
      List.foldl, show List.range 4 = [0, 1, 2, 3] from rfl, *]

/-- Claim C6 witness: selector 7 is not a recognised variant. -/
theorem C6_unrecognized_selector_returns_zero_witness :
    ((7 : ℕ) ≠ PT_385 → (7 : ℕ) ≠ PT_391 →
      Get_Temperature_PT 120 100 7 = 0 ∧ Get_Resistance_PT 120 100 7 = 0) ∧
    ((7 : ℕ) ≠ M_428 → Get_Temperature_M 120 100 7 = 0 ∧ Get_Resistance_M 120 100 7 = 0) ∧
    ((7 : ℕ) ≠ N_617 → Get_Temperature_N 120 100 7 = 0 ∧ Get_Resistance_N 120 100 7 = 0) :=
  C6_unrecognized_selector_returns_zero 120 100 7

/-- Claim C10: for nickel with an unrecognised nominal resistance the knee
stays 0, so every non-negative resistance takes the series branch. -/
theorem C10_nickel_unrecognized_R0_series (R R0 : ℝ)
    (h100 : R0 ≠ 100) (h500 : R0 ≠ 500) (h1000 : R0 ≠ 1000) (hR : 0 ≤ R) :
    Get_Temperature_N R R0 N_617 =
      100 + ∑ i in Finset.Icc 1 3, N_D_617.getD (i - 1) 0 * (R / R0 - 1.6172) ^ i := by
  rw [sum_Icc_one_three]
  simp [Get_Temperature_N, h100, h500, h1000, not_lt.mpr hR, N_D_617, List.foldl,
    show List.range 3 = [0, 1, 2] from rfl]
  ring

/-- Claim C10 witness: `R0 = 200`, resistance 200. -/
theorem C10_nickel_unrecognized_R0_series_witness :
    Get_Temperature_N 200 200 N_617 =
      100 + ∑ i in Finset.Icc 1 3, N_D_617.getD (i - 1) 0 * ((200 : ℝ) / 200 - 1.6172) ^ i :=
  C10_nickel_unrecognized_R0_series 200 200 (by norm_num) (by norm_num) (by norm_num)
    (by norm_num)

/-- Claim C1: for the platinum families with positive `R0`,
`Get_Temperature_PT` returns the 4-term power series when the measured
resistance is strictly below `R0` and the closed-form quadratic root
otherwise, the branch chosen purely by comparing resistance to `R0`. -/
theorem C1_pt_branch_structure (Resistance R0 : ℝ) (hR0 : 0 < R0) :
    (Get_Temperature_PT Resistance R0 PT_385 =
      if Resistance < R0 then
        ∑ i in Finset.Icc 1 4, PT_D_385.getD (i - 1) 0 * (Resistance / R0 - 1) ^ i
      else
        (Real.sqrt (PT_A_385 ^ 2 - 4 * PT_B_385 * (1 - Resistance / R0)) - PT_A_385) /
          (2 * PT_B_385)) ∧
    (Get_Temperature_PT Resistance R0 PT_391 =
      if Resistance < R0 then
        ∑ i in Finset.Icc 1 4, PT_D_391.getD (i - 1) 0 * (Resistance / R0 - 1) ^ i
      else
        (Real.sqrt (PT_A_391 ^ 2 - 4 * PT_B_391 * (1 - Resistance / R0)) - PT_A_391) /
          (2 * PT_B_391)) := by
  constructor <;>
  · rw [sum_Icc_one_four]
    by_cases h : Resistance < R0 <;>
      simp [Get_Temperature_PT, h, PT_385, PT_391, PT_D_385, PT_D_391, List.foldl,
        show List.range 4 = [0, 1, 2, 3] from rfl]

/-- Claim C1 witness: `Resistance = 50`, `R0 = 100`. -/
theorem C1_pt_branch_structure_witness :
    0 < (100 : ℝ) ∧
    ((Get_Temperature_PT 50 100 PT_385 =
      if (50 : ℝ) < 100 then
        ∑ i in Finset.Icc 1 4, PT_D_385.getD (i - 1) 0 * ((50 : ℝ) / 100 - 1) ^ i
      else
        (Real.sqrt (PT_A_385 ^ 2 - 4 * PT_B_385 * (1 - (50 : ℝ) / 100)) - PT_A_385) /
          (2 * PT_B_385)) ∧
    (Get_Temperature_PT 50 100 PT_391 =
      if (50 : ℝ) < 100 then
        ∑ i in Finset.Icc 1 4, PT_D_391.getD (i - 1) 0 * ((50 : ℝ) / 100 - 1) ^ i
      else
        (Real.sqrt (PT_A_391 ^ 2 - 4 * PT_B_391 * (1 - (50 : ℝ) / 100)) - PT_A_391) /
          (2 * PT_B_391))) :=
  ⟨by norm_num, C1_pt_branch_structure 50 100 (by norm_num)⟩

/-- Knee selection and branch shape of `Get_Temperature_N`, for any
nominal resistance whose knee chain evaluates to `ts`. -/
lemma getTemperatureN_eq (R ts R0 : ℝ)
    (hts : (if R0 = 100 then (161.72 : ℝ) else if R0 = 500 then 808.59
      else if R0 = 1000 then 1617.2 else 0) = ts) :
    Get_Temperature_N R R0 N_617 =
      if R < ts then
        (Real.sqrt (N_A_617 ^ 2 - 4 * N_B_617 * (1 - R / R0)) - N_A_617) / (2 * N_B_617)
      else
        (N_D_617.getD 0 0 * (R / R0 - 1.6172) ^ 1 + N_D_617.getD 1 0 * (R / R0 - 1.6172) ^ 2 +
          N_D_617.getD 2 0 * (R / R0 - 1.6172) ^ 3) + 100 := by
  unfold Get_Temperature_N
  rw [if_pos rfl, hts]
  by_cases h : R < ts
  · rw [if_pos h, if_pos h]
  · rw [if_neg h, if_neg h, show List.range 3 = [0, 1, 2] from rfl]
    simp only [List.foldl]
    ring

/-- Claim C2: for nickel with recognised `R0` the knee is selected as
161.72, 808.59 or 1617.2; strictly below it the quadratic closed form is
returned, at or above it 100 plus the 3-term series. -/
theorem C2_nickel_knee_structure (Resistance : ℝ) :
    (Get_Temperature_N Resistance 100 N_617 =
      if Resistance < 161.72 then
        (Real.sqrt (N_A_617 ^ 2 - 4 * N_B_617 * (1 - Resistance / 100)) - N_A_617) /
          (2 * N_B_617)
      else
        100 + ∑ i in Finset.Icc 1 3, N_D_617.getD (i - 1) 0 * (Resistance / 100 - 1.6172) ^ i) ∧
    (Get_Temperature_N Resistance 500 N_617 =
      if Resistance < 808.59 then
        (Real.sqrt (N_A_617 ^ 2 - 4 * N_B_617 * (1 - Resistance / 500)) - N_A_617) /
          (2 * N_B_617)
      else
        100 + ∑ i in Finset.Icc 1 3, N_D_617.getD (i - 1) 0 * (Resistance / 500 - 1.6172) ^ i) ∧
    (Get_Temperature_N Resistance 1000 N_617 =
      if Resistance < 1617.2 then
        (Real.sqrt (N_A_617 ^ 2 - 4 * N_B_617 * (1 - Resistance / 1000)) - N_A_617) /
          (2 * N_B_617)
      else
        100 + ∑ i in Finset.Icc 1 3, N_D_617.getD (i - 1) 0 * (Resistance / 1000 - 1.6172) ^ i) := by
  refine ⟨?_, ?_, ?_⟩ <;> rw [sum_Icc_one_three]
  · rw [getTemperatureN_eq Resistance 161.72 100 (by norm_num)]
    by_cases h : Resistance < (161.72 : ℝ)
    · rw [if_pos h, if_pos h]
    · rw [if_neg h, if_neg h]; ring
  · rw [getTemperatureN_eq Resistance 808.59 500 (by norm_num)]
    by_cases h : Resistance < (808.59 : ℝ)
    · rw [if_pos h, if_pos h]
    · rw [if_neg h, if_neg h]; ring
  · rw [getTemperatureN_eq Resistance 1617.2 1000 (by norm_num)]
    by_cases h : Resistance < (1617.2 : ℝ)
    · rw [if_pos h, if_pos h]
    · rw [if_neg h, if_neg h]; ring

/-- Claim C7 counterexample: with `R0 = 0` the platinum conversion does
not signal anything and does not return a guarded default: it evaluates
the quadratic branch with the division performed (`x / 0 = 0` in the
real-valued model), yielding a nonzero temperature. -/
theorem C7_no_zero_R0_guard_counterexample :
    Get_Temperature_PT 100 0 PT_385 =
      (Real.sqrt (PT_A_385 ^ 2 - 4 * PT_B_385) - PT_A_385) / (2 * PT_B_385) ∧
    Get_Temperature_PT 100 0 PT_385 ≠ 0 := by
  have heq : Get_Temperature_PT 100 0 PT_385 =
      (Real.sqrt (PT_A_385 ^ 2 - 4 * PT_B_385) - PT_A_385) / (2 * PT_B_385) := by
    unfold Get_Temperature_PT
    rw [if_neg (by norm_num), if_pos rfl, div_zero]
    norm_num
  refine ⟨heq, heq ▸ ?_⟩
  have hlt : PT_A_385 < Real.sqrt (PT_A_385 ^ 2 - 4 * PT_B_385) := by
    have h1 : PT_A_385 = Real.sqrt (PT_A_385 ^ 2) := by
      rw [Real.sqrt_sq (by norm_num [PT_A_385])]
    nth_rewrite 1 [h1]
    apply Real.sqrt_lt_sqrt (by positivity)
    norm_num [PT_A_385, PT_B_385]
  have hnum : 0 < Real.sqrt (PT_A_385 ^ 2 - 4 * PT_B_385) - PT_A_385 := by linarith
  have hden : 2 * PT_B_385 < 0 := by norm_num [PT_B_385]
  exact ne_of_lt (div_neg_of_pos_of_neg hnum hden)

/-- Claim C7 amended: with `R0 = 0` the conversions perform the division
by `R0` unguarded; in the real-valued model (`x / 0 = 0`) every
non-negative resistance lands in the closed-form branch evaluated at
`Resistance / R0 = 0`. -/
theorem C7_no_zero_R0_guard (R : ℝ) (hR : 0 ≤ R) :
    Get_Temperature_PT R 0 PT_385 =
      (Real.sqrt (PT_A_385 ^ 2 - 4 * PT_B_385) - PT_A_385) / (2 * PT_B_385) ∧
    Get_Temperature_M R 0 M_428 = (0 - 1) / M_A_428 := by
  constructor
  · unfold Get_Temperature_PT
    rw [if_neg (not_lt.mpr hR), if_pos rfl, div_zero]
    norm_num
  · unfold Get_Temperature_M
    rw [if_neg (not_lt.mpr hR), if_pos rfl, div_zero]

/-- Claim C7 amended witness: resistance 100 with `R0 = 0`. -/
theorem C7_no_zero_R0_guard_witness :
    Get_Temperature_PT 100 0 PT_385 =
      (Real.sqrt (PT_A_385 ^ 2 - 4 * PT_B_385) - PT_A_385) / (2 * PT_B_385) ∧
    Get_Temperature_M 100 0 M_428 = (0 - 1) / M_A_428 :=
  C7_no_zero_R0_guard 100 (by norm_num)

/-- Claim C8 counterexample: the square-root argument of the platinum
quadratic branch is negative for the in-branch input `Resistance = 1000`,
`R0 = 100` (resistance ratio 10), so it does not stay non-negative for
every real input. -/
theorem C8_sqrt_argument_counterexample :
    PT_A_385 ^ 2 - 4 * PT_B_385 * (1 - (1000 : ℝ) / 100) < 0 ∧
    Get_Temperature_PT 1000 100 PT_385 =
      (0 - PT_A_385) / (2 * PT_B_385) := by
  constructor
  · norm_num [PT_A_385, PT_B_385]
  · unfold Get_Temperature_PT
    rw [if_neg (by norm_num), if_pos rfl]
    rw [Real.sqrt_eq_zero_of_nonpos (by norm_num [PT_A_385, PT_B_385])]

/-- Claim C8 amended: no range validation is performed and each branch is
total, but the platinum square-root argument is only guaranteed
non-negative for resistance ratios up to 7 (which covers the documented
ranges); the nickel argument is non-negative for every non-negative
resistance. -/
theorem C8_sqrt_argument_bounded (R R0 : ℝ) (hR0 : 0 < R0) :
    (R0 ≤ R → R ≤ 7 * R0 →
      0 ≤ PT_A_385 ^ 2 - 4 * PT_B_385 * (1 - R / R0) ∧
      0 ≤ PT_A_391 ^ 2 - 4 * PT_B_391 * (1 - R / R0)) ∧
    (0 ≤ R → 0 ≤ N_A_617 ^ 2 - 4 * N_B_617 * (1 - R / R0)) := by
  constructor
  · intro h1 h7
    have hx1 : (1 : ℝ) ≤ R / R0 := (le_div_iff₀ hR0).mpr (by linarith)
    have hx7 : R / R0 ≤ 7 := (div_le_iff₀ hR0).mpr (by linarith)
    constructor
    · norm_num [PT_A_385, PT_B_385]; nlinarith
    · norm_num [PT_A_391, PT_B_391]; nlinarith
  · intro hR
    have hx0 : (0 : ℝ) ≤ R / R0 := div_nonneg hR (le_of_lt hR0)
    norm_num [N_A_617, N_B_617]; nlinarith

/-- Claim C8 amended witness: `R = 390.48`, `R0 = 100` (the documented
Pt100 top-of-range resistance) and the nickel side at the same input. -/
theorem C8_sqrt_argument_bounded_witness :
    ((100 : ℝ) ≤ 390.48 → (390.48 : ℝ) ≤ 7 * 100 →
      0 ≤ PT_A_385 ^ 2 - 4 * PT_B_385 * (1 - (390.48 : ℝ) / 100) ∧
      0 ≤ PT_A_391 ^ 2 - 4 * PT_B_391 * (1 - (390.48 : ℝ) / 100)) ∧
    ((0 : ℝ) ≤ 390.48 → 0 ≤ N_A_617 ^ 2 - 4 * N_B_617 * (1 - (390.48 : ℝ) / 100)) :=
  C8_sqrt_argument_bounded 390.48 100 (by norm_num)

/-- Claim C4 counterexample: for platinum-385 with `R0 = 100` the round
trip at `T = -179` (far from the branch boundary at 0) errs by about
1.67e-3, exceeding the claimed 1e-3 tolerance. -/
theorem C4_roundtrip_counterexample :
    ¬ |Get_Temperature_PT (Get_Resistance_PT (-179) 100 PT_385) 100 PT_385 - (-179)| ≤
      1 / 1000 := by
  have hR : Get_Resistance_PT (-179 : ℝ) 100 PT_385 = 275217154972677 / 10000000000000 := by
    unfold Get_Resistance_PT
    rw [if_pos (by norm_num), if_pos rfl]
    norm_num [PT_A_385, PT_B_385, PT_C_385]
  rw [hR]
  have hser : Get_Temperature_PT (275217154972677 / 10000000000000 : ℝ) 100 PT_385 <
      -179 - 1 / 1000 := by
    unfold Get_Temperature_PT
    rw [if_pos (by norm_num), show List.range 4 = [0, 1, 2, 3] from rfl]
    norm_num [PT_385, PT_391, PT_D_385, List.foldl]
  intro habs
  have h2 := (abs_le.mp habs).1
  linarith

/-- Exact round trip for platinum-385 on the closed-form branch. -/
lemma pt385_roundtrip (R0 T : ℝ) (hR0 : 0 < R0) (h0 : 0 ≤ T) (h850 : T ≤ 850) :
    Get_Temperature_PT (Get_Resistance_PT T R0 PT_385) R0 PT_385 = T := by
  have hRval : Get_Resistance_PT T R0 PT_385 =
      R0 * (1 + PT_A_385 * T + PT_B_385 * T ^ 2) := by
    unfold Get_Resistance_PT
    rw [if_neg (not_lt.mpr h0), if_pos rfl]
  have hone : (1 : ℝ) ≤ 1 + PT_A_385 * T + PT_B_385 * T ^ 2 := by
    nlinarith [mul_nonneg h0 (show (0 : ℝ) ≤ PT_A_385 + PT_B_385 * T by
      simp only [PT_A_385, PT_B_385]; nlinarith)]
  rw [hRval]
  unfold Get_Temperature_PT
  rw [if_neg (not_lt.mpr (le_mul_of_one_le_right hR0.le hone)), if_pos rfl]
  rw [mul_div_cancel_left₀ _ (ne_of_gt hR0)]
  rw [show PT_A_385 ^ 2 - 4 * PT_B_385 * (1 - (1 + PT_A_385 * T + PT_B_385 * T ^ 2)) =
      (PT_A_385 + 2 * PT_B_385 * T) ^ 2 by ring]
  rw [Real.sqrt_sq (show (0 : ℝ) ≤ PT_A_385 + 2 * PT_B_385 * T by
    simp only [PT_A_385, PT_B_385]; nlinarith)]
  have hB : (2 : ℝ) * PT_B_385 ≠ 0 := by norm_num [PT_B_385]
  field_simp

/-- Exact round trip for platinum-391 on the closed-form branch. -/
lemma pt391_roundtrip (R0 T : ℝ) (hR0 : 0 < R0) (h0 : 0 ≤ T) (h850 : T ≤ 850) :
    Get_Temperature_PT (Get_Resistance_PT T R0 PT_391) R0 PT_391 = T := by
  have hRval : Get_Resistance_PT T R0 PT_391 =
      R0 * (1 + PT_A_391 * T + PT_B_391 * T ^ 2) := by
    unfold Get_Resistance_PT
    rw [if_neg (not_lt.mpr h0), if_neg (by norm_num [PT_385, PT_391]), if_pos rfl]
  have hone : (1 : ℝ) ≤ 1 + PT_A_391 * T + PT_B_391 * T ^ 2 := by
    nlinarith [mul_nonneg h0 (show (0 : ℝ) ≤ PT_A_391 + PT_B_391 * T by
      simp only [PT_A_391, PT_B_391]; nlinarith)]
  rw [hRval]
  unfold Get_Temperature_PT
  rw [if_neg (not_lt.mpr (le_mul_of_one_le_right hR0.le hone)),
    if_neg (by norm_num [PT_385, PT_391]), if_pos rfl]
  rw [mul_div_cancel_left₀ _ (ne_of_gt hR0)]
  rw [show PT_A_391 ^ 2 - 4 * PT_B_391 * (1 - (1 + PT_A_391 * T + PT_B_391 * T ^ 2)) =
      (PT_A_391 + 2 * PT_B_391 * T) ^ 2 by ring]
  rw [Real.sqrt_sq (show (0 : ℝ) ≤ PT_A_391 + 2 * PT_B_391 * T by
    simp only [PT_A_391, PT_B_391]; nlinarith)]
  have hB : (2 : ℝ) * PT_B_391 ≠ 0 := by norm_num [PT_B_391]
  field_simp

/-- Exact round trip for copper on the linear branch. -/
lemma m428_roundtrip (R0 T : ℝ) (hR0 : 0 < R0) (h0 : 0 ≤ T) :
    Get_Temperature_M (Get_Resistance_M T R0 M_428) R0 M_428 = T := by
  have hRval : Get_Resistance_M T R0 M_428 = R0 * (1 + M_A_428 * T) := by
    unfold Get_Resistance_M
    rw [if_neg (not_lt.mpr h0), if_pos rfl]
  have hone : (1 : ℝ) ≤ 1 + M_A_428 * T := by
    nlinarith [mul_nonneg h0 (show (0 : ℝ) ≤ M_A_428 by norm_num [M_A_428])]
  rw [hRval]
  unfold Get_Temperature_M
  rw [if_neg (not_lt.mpr (le_mul_of_one_le_right hR0.le hone)), if_pos rfl]
  rw [mul_div_cancel_left₀ _ (ne_of_gt hR0)]
  have hA : M_A_428 ≠ 0 := by norm_num [M_A_428]
  field_simp

/-- Exact round trip for nickel below the knee. -/
lemma n617_roundtrip (R0 T : ℝ) (hsel : R0 = 100 ∨ R0 = 500 ∨ R0 = 1000)
    (hlo : -60 ≤ T) (hhi : T ≤ 99) :
    Get_Temperature_N (Get_Resistance_N T R0 N_617) R0 N_617 = T := by
  have hT100 : T < 100 := by linarith
  have hRval : Get_Resistance_N T R0 N_617 =
      R0 * (1 + N_A_617 * T + N_B_617 * T ^ 2) := by
    unfold Get_Resistance_N
    rw [if_pos rfl, if_pos hT100]
  rw [hRval]
  have hsum : N_A_617 * T + N_B_617 * T ^ 2 < 0.61718 := by
    simp only [N_A_617, N_B_617]
    nlinarith [mul_nonneg (show (0 : ℝ) ≤ T + 60 by linarith)
      (show (0 : ℝ) ≤ 99 - T by linarith)]
  have hA2BT : (0 : ℝ) ≤ N_A_617 + 2 * N_B_617 * T := by
    simp only [N_A_617, N_B_617]; nlinarith
  have harg : N_A_617 ^ 2 - 4 * N_B_617 * (1 - (1 + N_A_617 * T + N_B_617 * T ^ 2)) =
      (N_A_617 + 2 * N_B_617 * T) ^ 2 := by ring
  have hB : (2 : ℝ) * N_B_617 ≠ 0 := by norm_num [N_B_617]
  rcases hsel with rfl | rfl | rfl
  · rw [getTemperatureN_eq _ 161.72 100 (by norm_num)]
    rw [if_pos (show (100 : ℝ) * (1 + N_A_617 * T + N_B_617 * T ^ 2) < 161.72 by
      simp only [N_A_617, N_B_617] at hsum ⊢; nlinarith)]
    rw [mul_div_cancel_left₀ _ (show (100 : ℝ) ≠ 0 by norm_num), harg, Real.sqrt_sq hA2BT]
    field_simp
  · rw [getTemperatureN_eq _ 808.59 500 (by norm_num)]
    rw [if_pos (show (500 : ℝ) * (1 + N_A_617 * T + N_B_617 * T ^ 2) < 808.59 by
      simp only [N_A_617, N_B_617] at hsum ⊢; nlinarith)]
    rw [mul_div_cancel_left₀ _ (show (500 : ℝ) ≠ 0 by norm_num), harg, Real.sqrt_sq hA2BT]
    field_simp
  · rw [getTemperatureN_eq _ 1617.2 1000 (by norm_num)]
    rw [if_pos (show (1000 : ℝ) * (1 + N_A_617 * T + N_B_617 * T ^ 2) < 1617.2 by
      simp only [N_A_617, N_B_617] at hsum ⊢; nlinarith)]
    rw [mul_div_cancel_left₀ _ (show (1000 : ℝ) ≠ 0 by norm_num), harg, Real.sqrt_sq hA2BT]
    field_simp

/-- Claim C4 amended: wherever the inverse direction lands in its
closed-form branch the round trip is exact: platinum for temperatures in
[0, 850], copper in [0, 200], nickel in [-60, 99] for the recognised
nominal resistances.  (On the series branches the 1e-3 tolerance fails;
see the counterexample at -179 C.) -/
theorem C4_roundtrip_exact_on_closed_form (R0 T : ℝ) (hR0 : 0 < R0) :
    (0 ≤ T → T ≤ 850 →
      Get_Temperature_PT (Get_Resistance_PT T R0 PT_385) R0 PT_385 = T ∧
      Get_Temperature_PT (Get_Resistance_PT T R0 PT_391) R0 PT_391 = T) ∧
    (0 ≤ T → T ≤ 200 →
      Get_Temperature_M (Get_Resistance_M T R0 M_428) R0 M_428 = T) ∧
    ((R0 = 100 ∨ R0 = 500 ∨ R0 = 1000) → -60 ≤ T → T ≤ 99 →
      Get_Temperature_N (Get_Resistance_N T R0 N_617) R0 N_617 = T) :=
  ⟨fun h0 h850 => ⟨pt385_roundtrip R0 T hR0 h0 h850, pt391_roundtrip R0 T hR0 h0 h850⟩,
   fun h0 _ => m428_roundtrip R0 T hR0 h0,
   fun hsel hlo hhi => n617_roundtrip R0 T hsel hlo hhi⟩

/-- Claim C4 amended witness: `R0 = 100`, `T = 50`. -/
theorem C4_roundtrip_exact_on_closed_form_witness :
    ((0 : ℝ) ≤ 50 → (50 : ℝ) ≤ 850 →
      Get_Temperature_PT (Get_Resistance_PT 50 100 PT_385) 100 PT_385 = 50 ∧
      Get_Temperature_PT (Get_Resistance_PT 50 100 PT_391) 100 PT_391 = 50) ∧
    ((0 : ℝ) ≤ 50 → (50 : ℝ) ≤ 200 →
      Get_Temperature_M (Get_Resistance_M 50 100 M_428) 100 M_428 = 50) ∧
    (((100 : ℝ) = 100 ∨ (100 : ℝ) = 500 ∨ (100 : ℝ) = 1000) → (-60 : ℝ) ≤ 50 → (50 : ℝ) ≤ 99 →
      Get_Temperature_N (Get_Resistance_N 50 100 N_617) 100 N_617 = 50) :=
  C4_roundtrip_exact_on_closed_form 100 50 (by norm_num)

/-- Strict growth of the platinum-385 negative-branch polynomial. -/
lemma pt385_poly_neg_mono {T1 T2 : ℝ} (h : T1 < T2) (hb : T2 ≤ 0) :
    1 + PT_A_385 * T1 + PT_B_385 * T1 ^ 2 + PT_C_385 * (T1 - 100) * T1 ^ 3 <
    1 + PT_A_385 * T2 + PT_B_385 * T2 ^ 2 + PT_C_385 * (T2 - 100) * T2 ^ 3 := by
  simp only [PT_A_385, PT_B_385, PT_C_385]
  nlinarith [mul_nonneg (sub_nonneg.mpr h.le) (show (0 : ℝ) ≤ -(T1 + T2) by linarith),
    mul_nonneg (sub_nonneg.mpr h.le) (show (0 : ℝ) ≤ T1 ^ 2 + T1 * T2 + T2 ^ 2 by
      nlinarith [sq_nonneg (T1 + T2), sq_nonneg T1, sq_nonneg T2]),
    mul_nonneg (sub_nonneg.mpr h.le) (show (0 : ℝ) ≤ -((T1 + T2) * (T1 ^ 2 + T2 ^ 2)) by
      nlinarith [mul_nonneg (show (0 : ℝ) ≤ -(T1 + T2) by linarith)
        (show (0 : ℝ) ≤ T1 ^ 2 + T2 ^ 2 by positivity)]),
    sub_pos.mpr h]

/-- The platinum-385 negative-branch polynomial stays below its value 1
at zero. -/
lemma pt385_poly_neg_lt_one {T : ℝ} (hb : T < 0) :
    1 + PT_A_385 * T + PT_B_385 * T ^ 2 + PT_C_385 * (T - 100) * T ^ 3 < 1 := by
  simp only [PT_A_385, PT_B_385, PT_C_385]
  have hbr : (0 : ℝ) < 3.9083e-3 + -5.775e-7 * T + -4.183e-12 * (T - 100) * T ^ 2 := by
    nlinarith [mul_nonneg (show (0 : ℝ) ≤ 100 - T by linarith) (sq_nonneg T)]
  nlinarith [mul_pos (neg_pos.mpr hb) hbr]

/-- Strict growth of the platinum-385 quadratic branch up to 850. -/
lemma pt385_poly_pos_mono {T1 T2 : ℝ} (h : T1 < T2) (hb : T2 ≤ 850) :
    1 + PT_A_385 * T1 + PT_B_385 * T1 ^ 2 < 1 + PT_A_385 * T2 + PT_B_385 * T2 ^ 2 := by
  simp only [PT_A_385, PT_B_385]
  nlinarith [mul_pos (sub_pos.mpr h)
    (show (0 : ℝ) < 3.9083e-3 + -5.775e-7 * (T1 + T2) by nlinarith)]

/-- The platinum-385 quadratic branch stays at or above 1 for
non-negative temperatures up to 850. -/
lemma pt385_poly_pos_ge_one {T : ℝ} (h0 : 0 ≤ T) (hb : T ≤ 850) :
    (1 : ℝ) ≤ 1 + PT_A_385 * T + PT_B_385 * T ^ 2 := by
  simp only [PT_A_385, PT_B_385]
  nlinarith [mul_nonneg h0 (show (0 : ℝ) ≤ 3.9083e-3 + -5.775e-7 * T by nlinarith)]

/-- Strict growth of the platinum-391 negative-branch polynomial. -/
lemma pt391_poly_neg_mono {T1 T2 : ℝ} (h : T1 < T2) (hb : T2 ≤ 0) :
    1 + PT_A_391 * T1 + PT_B_391 * T1 ^ 2 + PT_C_391 * (T1 - 100) * T1 ^ 3 <
    1 + PT_A_391 * T2 + PT_B_391 * T2 ^ 2 + PT_C_391 * (T2 - 100) * T2 ^ 3 := by
  simp only [PT_A_391, PT_B_391, PT_C_391]
  nlinarith [mul_nonneg (sub_nonneg.mpr h.le) (show (0 : ℝ) ≤ -(T1 + T2) by linarith),
    mul_nonneg (sub_nonneg.mpr h.le) (show (0 : ℝ) ≤ T1 ^ 2 + T1 * T2 + T2 ^ 2 by
      nlinarith [sq_nonneg (T1 + T2), sq_nonneg T1, sq_nonneg T2]),
    mul_nonneg (sub_nonneg.mpr h.le) (show (0 : ℝ) ≤ -((T1 + T2) * (T1 ^ 2 + T2 ^ 2)) by
      nlinarith [mul_nonneg (show (0 : ℝ) ≤ -(T1 + T2) by linarith)
        (show (0 : ℝ) ≤ T1 ^ 2 + T2 ^ 2 by positivity)]),
    sub_pos.mpr h]

/-- The platinum-391 negative-branch polynomial stays below 1. -/
lemma pt391_poly_neg_lt_one {T : ℝ} (hb : T < 0) :
    1 + PT_A_391 * T + PT_B_391 * T ^ 2 + PT_C_391 * (T - 100) * T ^ 3 < 1 := by
  simp only [PT_A_391, PT_B_391, PT_C_391]
  have hbr : (0 : ℝ) < 3.9690e-3 + -5.841e-7 * T + -4.330e-12 * (T - 100) * T ^ 2 := by
    nlinarith [mul_nonneg (show (0 : ℝ) ≤ 100 - T by linarith) (sq_nonneg T)]
  nlinarith [mul_pos (neg_pos.mpr hb) hbr]

/-- Strict growth of the platinum-391 quadratic branch up to 850. -/
lemma pt391_poly_pos_mono {T1 T2 : ℝ} (h : T1 < T2) (hb : T2 ≤ 850) :
    1 + PT_A_391 * T1 + PT_B_391 * T1 ^ 2 < 1 + PT_A_391 * T2 + PT_B_391 * T2 ^ 2 := by
  simp only [PT_A_391, PT_B_391]
  nlinarith [mul_pos (sub_pos.mpr h)
    (show (0 : ℝ) < 3.9690e-3 + -5.841e-7 * (T1 + T2) by nlinarith)]

/-- The platinum-391 quadratic branch stays at or above 1. -/
lemma pt391_poly_pos_ge_one {T : ℝ} (h0 : 0 ≤ T) (hb : T ≤ 850) :
    (1 : ℝ) ≤ 1 + PT_A_391 * T + PT_B_391 * T ^ 2 := by
  simp only [PT_A_391, PT_B_391]
  nlinarith [mul_nonneg h0 (show (0 : ℝ) ≤ 3.9690e-3 + -5.841e-7 * T by nlinarith)]

/-- Strict growth of the copper negative-branch polynomial. -/
lemma m428_poly_neg_mono {T1 T2 : ℝ} (h : T1 < T2) (hb : T2 ≤ 0) :
    1 + M_A_428 * T1 + M_B_428 * T1 * (T1 + 6.7) + M_C_428 * T1 ^ 3 <
    1 + M_A_428 * T2 + M_B_428 * T2 * (T2 + 6.7) + M_C_428 * T2 ^ 3 := by
  simp only [M_A_428, M_B_428, M_C_428]
  nlinarith [mul_nonneg (sub_nonneg.mpr h.le) (show (0 : ℝ) ≤ -(T1 + T2) by linarith),
    mul_nonneg (sub_nonneg.mpr h.le) (show (0 : ℝ) ≤ T1 ^ 2 + T1 * T2 + T2 ^ 2 by
      nlinarith [sq_nonneg (T1 + T2), sq_nonneg T1, sq_nonneg T2]),
    sub_pos.mpr h]

/-- The copper negative-branch polynomial stays below 1. -/
lemma m428_poly_neg_lt_one {T : ℝ} (hb : T < 0) :
    1 + M_A_428 * T + M_B_428 * T * (T + 6.7) + M_C_428 * T ^ 3 < 1 := by
  simp only [M_A_428, M_B_428, M_C_428]
  have hbr : (0 : ℝ) < 4.28e-3 + -6.2032e-7 * (T + 6.7) + 8.5154e-10 * T ^ 2 := by
    nlinarith [sq_nonneg T]
  nlinarith [mul_pos (neg_pos.mpr hb) hbr]

/-- Strict growth of the nickel quadratic branch from -60 on. -/
lemma n617_poly_low_mono {T1 T2 : ℝ} (ha : -60 ≤ T1) (h : T1 < T2) :
    1 + N_A_617 * T1 + N_B_617 * T1 ^ 2 < 1 + N_A_617 * T2 + N_B_617 * T2 ^ 2 := by
  simp only [N_A_617, N_B_617]
  nlinarith [mul_pos (sub_pos.mpr h)
    (show (0 : ℝ) < 5.4963e-3 + 6.7556e-6 * (T1 + T2) by nlinarith)]

/-- Strict growth of the nickel cubic branch from 100 on. -/
lemma n617_poly_high_mono {T1 T2 : ℝ} (ha : 100 ≤ T1) (h : T1 < T2) :
    1 + N_A_617 * T1 + N_B_617 * T1 ^ 2 + N_C_617 * (T1 - 100) * T1 ^ 2 <
    1 + N_A_617 * T2 + N_B_617 * T2 ^ 2 + N_C_617 * (T2 - 100) * T2 ^ 2 := by
  simp only [N_A_617, N_B_617, N_C_617]
  have h21 : (0 : ℝ) < T2 - T1 := sub_pos.mpr h
  nlinarith [mul_nonneg h21.le (mul_nonneg (show (0 : ℝ) ≤ T1 by linarith)
      (show (0 : ℝ) ≤ T1 - 100 by linarith)),
    mul_nonneg h21.le (mul_nonneg (show (0 : ℝ) ≤ T2 by linarith)
      (show (0 : ℝ) ≤ T2 by linarith)),
    mul_nonneg h21.le (mul_nonneg (show (0 : ℝ) ≤ T1 by linarith)
      (show (0 : ℝ) ≤ T2 by linarith)),
    mul_nonneg h21.le (show (0 : ℝ) ≤ T1 + T2 by linarith), h21]

/-- Claim C5: within each family's documented range the
temperature-to-resistance map is strictly increasing, for every positive
nominal resistance. -/
theorem C5_resistance_strictly_monotone (R0 T1 T2 : ℝ) (hR0 : 0 < R0) (h12 : T1 < T2) :
    (-200 ≤ T1 → T2 ≤ 850 →
      Get_Resistance_PT T1 R0 PT_385 < Get_Resistance_PT T2 R0 PT_385 ∧
      Get_Resistance_PT T1 R0 PT_391 < Get_Resistance_PT T2 R0 PT_391) ∧
    (-180 ≤ T1 → T2 ≤ 200 →
      Get_Resistance_M T1 R0 M_428 < Get_Resistance_M T2 R0 M_428) ∧
    (-60 ≤ T1 → T2 ≤ 180 →
      Get_Resistance_N T1 R0 N_617 < Get_Resistance_N T2 R0 N_617) := by
  refine ⟨fun hlo hhi => ⟨?_, ?_⟩, fun hlo hhi => ?_, fun hlo hhi => ?_⟩
  · unfold Get_Resistance_PT
    by_cases h1 : T1 < 0 <;> by_cases h2 : T2 < 0
    · rw [if_pos h1, if_pos h2, if_pos rfl, if_pos rfl]
      exact mul_lt_mul_of_pos_left (pt385_poly_neg_mono h12 h2.le) hR0
    · rw [if_pos h1, if_neg h2, if_pos rfl, if_pos rfl]
      exact mul_lt_mul_of_pos_left (lt_of_lt_of_le (pt385_poly_neg_lt_one h1)
        (pt385_poly_pos_ge_one (not_lt.mp h2) hhi)) hR0
    · exact absurd (lt_trans h12 h2) h1
    · rw [if_neg h1, if_neg h2, if_pos rfl, if_pos rfl]
      exact mul_lt_mul_of_pos_left (pt385_poly_pos_mono h12 hhi) hR0
  · unfold Get_Resistance_PT
    have hne : ¬(PT_391 = PT_385) := by norm_num [PT_385, PT_391]
    by_cases h1 : T1 < 0 <;> by_cases h2 : T2 < 0
    · rw [if_pos h1, if_pos h2, if_neg hne, if_pos rfl, if_neg hne, if_pos rfl]
      exact mul_lt_mul_of_pos_left (pt391_poly_neg_mono h12 h2.le) hR0
    · rw [if_pos h1, if_neg h2, if_neg hne, if_pos rfl, if_neg hne, if_pos rfl]
      exact mul_lt_mul_of_pos_left (lt_of_lt_of_le (pt391_poly_neg_lt_one h1)
        (pt391_poly_pos_ge_one (not_lt.mp h2) hhi)) hR0
    · exact absurd (lt_trans h12 h2) h1
    · rw [if_neg h1, if_neg h2, if_neg hne, if_pos rfl, if_neg hne, if_pos rfl]
      exact mul_lt_mul_of_pos_left (pt391_poly_pos_mono h12 hhi) hR0
  · unfold Get_Resistance_M
    by_cases h1 : T1 < 0 <;> by_cases h2 : T2 < 0
    · rw [if_pos h1, if_pos h2, if_pos rfl, if_pos rfl]
      exact mul_lt_mul_of_pos_left (m428_poly_neg_mono h12 h2.le) hR0
    · rw [if_pos h1, if_neg h2, if_pos rfl, if_pos rfl]
      have hle : (1 : ℝ) ≤ 1 + M_A_428 * T2 := by
        have h0 : (0 : ℝ) ≤ T2 := not_lt.mp h2
        simp only [M_A_428]
        nlinarith
      exact mul_lt_mul_of_pos_left (lt_of_lt_of_le (m428_poly_neg_lt_one h1) hle) hR0
    · exact absurd (lt_trans h12 h2) h1
    · rw [if_neg h1, if_neg h2, if_pos rfl, if_pos rfl]
      have h0 : (0 : ℝ) ≤ T1 := not_lt.mp h1
      apply mul_lt_mul_of_pos_left _ hR0
      have : (0 : ℝ) < M_A_428 := by norm_num [M_A_428]
      nlinarith
  · unfold Get_Resistance_N
    rw [if_pos rfl, if_pos rfl]
    by_cases h1 : T1 < 100 <;> by_cases h2 : T2 < 100
    · rw [if_pos h1, if_pos h2]
      exact mul_lt_mul_of_pos_left (n617_poly_low_mono hlo h12) hR0
    · rw [if_pos h1, if_neg h2]
      have hq : 1 + N_A_617 * T1 + N_B_617 * T1 ^ 2 <
          1 + N_A_617 * 100 + N_B_617 * 100 ^ 2 := n617_poly_low_mono hlo h1
      have hzero : N_C_617 * ((100 : ℝ) - 100) * 100 ^ 2 = 0 := by ring
      have hc : 1 + N_A_617 * 100 + N_B_617 * 100 ^ 2 ≤
          1 + N_A_617 * T2 + N_B_617 * T2 ^ 2 + N_C_617 * (T2 - 100) * T2 ^ 2 := by
        rcases eq_or_lt_of_le (not_lt.mp h2) with heq | hlt
        · rw [← heq]; linarith
        · linarith [n617_poly_high_mono (le_refl (100 : ℝ)) hlt]
      exact mul_lt_mul_of_pos_left (lt_of_lt_of_le hq hc) hR0
    · exact absurd (lt_trans h12 h2) h1
    · rw [if_neg h1, if_neg h2]
      exact mul_lt_mul_of_pos_left (n617_poly_high_mono (not_lt.mp h1) h12) hR0

/-- Claim C5 witness: `R0 = 100`, `T1 = 0`, `T2 = 1`. -/
theorem C5_resistance_strictly_monotone_witness :
    ((-200 : ℝ) ≤ 0 → (1 : ℝ) ≤ 850 →
      Get_Resistance_PT 0 100 PT_385 < Get_Resistance_PT 1 100 PT_385 ∧
      Get_Resistance_PT 0 100 PT_391 < Get_Resistance_PT 1 100 PT_391) ∧
    ((-180 : ℝ) ≤ 0 → (1 : ℝ) ≤ 200 →
      Get_Resistance_M 0 100 M_428 < Get_Resistance_M 1 100 M_428) ∧
    ((-60 : ℝ) ≤ 0 → (1 : ℝ) ≤ 180 →
      Get_Resistance_N 0 100 N_617 < Get_Resistance_N 1 100 N_617) :=
  C5_resistance_strictly_monotone 100 0 1 (by norm_num) (by norm_num)

end RTD
